import Mathlib

/-!
Shallow embedding of the WG Education server (Go source) in Lean 4.

The relational store (PostgreSQL) is modelled as an explicit state holding
the four tables as lists of rows, with the schema's uniqueness constraints
checked at insertion time exactly where the corresponding SQL statement would
raise a unique-constraint violation.  Each repository operation of the Go
`models` package (part_001 / part_002 of the source) becomes a pure function
from a `DBState` to a result together with the next `DBState`; a transaction
that fails at any step returns the ORIGINAL state (the Go code does
`defer tx.Rollback()` on the first error encountered).

The JWT token service (createToken / validateToken in the handlers package)
is modelled with a structured token whose signature field records the HMAC
input, i.e. the pair (claims, secret): verification re-computes the pair and
compares, so any tampering with claims or a wrong secret is detected, exactly
the guarantee HMAC-SHA256 gives.  Time is an integer count of seconds
(JWT NumericDate granularity); 24 hours is 86400 seconds.

The Gin middleware chain (middleware/auth.go) is modelled as a short-circuit
pipeline: JWTAuth runs first and either aborts with a status code or passes a
context (user id and role) to the role filters, which themselves either abort
or pass.  The jwt library's string-level parse+verify step inside the
middleware is abstracted as a parameter `validate : String → Option TokenClaims`
(the middleware code only branches on its success or failure).
-/

namespace WgEdu

/-- An identity row of the `users` table: id, unique username, plaintext
password, role (admin / teacher / student), creation timestamp. -/
structure User where
  id : Nat
  username : String
  password : String
  role : String
  dateCreated : Int
deriving DecidableEq

/-- A row of the `students` table: id, owning user id (foreign key to
`users`), four profile fields (email is globally unique), timestamps. -/
structure StudentRow where
  id : Nat
  userId : Nat
  firstName : String
  lastName : String
  email : String
  grade : String
  createdAt : Int
  updatedAt : Int
deriving DecidableEq

/-- The Go `Student` model returned by the repository: the profile row plus
the owning username, populated separately. -/
structure Student where
  row : StudentRow
  username : String
deriving DecidableEq

/-- A row of the `subjects` table: unique on (grade, name). -/
structure Subject where
  id : Nat
  grade : String
  name : String
  description : String
  createdAt : Int
deriving DecidableEq

/-- A row of the `teacher_subjects` table: unique on (teacherId, subjectId). -/
structure TeacherSubject where
  id : Nat
  teacherId : Nat
  subjectId : Nat
deriving DecidableEq

/-- The Go `StudentRequest` body for creating or updating a student;
password is optional (empty string means not supplied) on update. -/
structure StudentRequest where
  firstName : String
  lastName : String
  email : String
  grade : String
  username : String
  password : String
deriving DecidableEq

/-- The whole relational store: the four tables plus the SERIAL sequences
that mint fresh primary keys. -/
structure DBState where
  users : List User
  students : List StudentRow
  subjects : List Subject
  teacherSubjects : List TeacherSubject
  nextUserId : Nat
  nextStudentId : Nat
  nextTsId : Nat
deriving DecidableEq

/-- Database-level failures the repository code distinguishes:
`noRows` is sql.ErrNoRows (entity absent), `uniqueViolation` is the
unique-constraint error PostgreSQL raises (the Conflict of the spec). -/
inductive DBError where
  | noRows
  | uniqueViolation
deriving DecidableEq

deriving instance DecidableEq for Except

/-- GetUserByUsername from models: SELECT one row of `users` by username
(unique), sql.ErrNoRows when absent. -/
def GetUserByUsername (st : DBState) (username : String) : Except DBError User :=
  match st.users.find? (fun u => u.username == username) with
  | none => Except.error DBError.noRows
  | some u => Except.ok u

/-- CheckPassword from models: direct plaintext equality comparison. -/
def CheckPassword (user : User) (password : String) : Bool :=
  user.password == password

/-- CreateStudent from models, run inside one transaction:
insert the identity row with role student (failing with the
unique-constraint violation if the username exists), insert the profile row
(failing likewise if the email exists), commit; on any failure the deferred
rollback restores the original state. -/
def CreateStudent (st : DBState) (req : StudentRequest) (now : Int) :
    Except DBError Student × DBState :=
  if st.users.any (fun u => u.username == req.username) then
    (Except.error DBError.uniqueViolation, st)
  else
    let uid := st.nextUserId
    let st1 : DBState := { st with
      users := st.users ++ [⟨uid, req.username, req.password, "student", now⟩],
      nextUserId := uid + 1 }
    if st1.students.any (fun s => s.email == req.email) then
      (Except.error DBError.uniqueViolation, st)
    else
      let srow : StudentRow :=
        ⟨st1.nextStudentId, uid, req.firstName, req.lastName, req.email, req.grade, now, now⟩
      let st2 : DBState := { st1 with
        students := st1.students ++ [srow],
        nextStudentId := st1.nextStudentId + 1 }
      (Except.ok ⟨srow, req.username⟩, st2)

/-- Effect of the UPDATE users SET password statement: every `users` row
whose id matches gets the new password, all other columns and rows are
untouched. -/
def updateUserPassword (st : DBState) (uid : Nat) (pw : String) : DBState :=
  { st with users := st.users.map (fun u =>
      if u.id == uid then { u with password := pw } else u) }

/-- Effect of the UPDATE students SET statement: every `students` row whose
id matches gets the four profile fields and updatedAt overwritten together,
all other columns and rows are untouched. -/
def updateStudentRow (st : DBState) (id : Nat) (req : StudentRequest) (now : Int) :
    DBState :=
  { st with students := st.students.map (fun s =>
      if s.id == id then { s with
        firstName := req.firstName, lastName := req.lastName,
        email := req.email, grade := req.grade, updatedAt := now } else s) }

/-- Step 2 of the update transaction: the UPDATE users SET password
statement runs only when the request supplies a non-empty password. -/
def stepPassword (st : DBState) (req : StudentRequest) (uid : Nat) : DBState :=
  if req.password = "" then st else updateUserPassword st uid req.password

/-- UpdateStudent from models, run inside one transaction:
resolve the owning user id (sql.ErrNoRows if the profile id is absent),
update the identity password only when a non-empty one is supplied,
overwrite the four profile fields and updatedAt (failing with the
unique-constraint violation PostgreSQL raises when the new email belongs to
a different student row; the password step never touches `students`, so the
check reads the original rows), re-read the username, commit; on any
failure the original state is restored. -/
def UpdateStudent (st : DBState) (id : Nat) (req : StudentRequest) (now : Int) :
    Except DBError Student × DBState :=
  match st.students.find? (fun s => s.id == id) with
  | none => (Except.error DBError.noRows, st)
  | some row =>
    if st.students.any (fun s => s.id != id && s.email == req.email) then
      (Except.error DBError.uniqueViolation, st)
    else
      match (updateStudentRow (stepPassword st req row.userId) id req now).users.find?
          (fun u => u.id == row.userId) with
      | none => (Except.error DBError.noRows, st)
      | some u =>
        (Except.ok ⟨{ row with
          firstName := req.firstName, lastName := req.lastName,
          email := req.email, grade := req.grade, updatedAt := now }, u.username⟩,
          updateStudentRow (stepPassword st req row.userId) id req now)

/-- DeleteStudent from models, run inside one transaction:
resolve the owning user id (sql.ErrNoRows if the profile id is absent),
delete the profile row, then the identity row (whose ON DELETE CASCADE
clauses also remove dependent profile and assignment rows), commit. -/
def DeleteStudent (st : DBState) (id : Nat) : Except DBError Unit × DBState :=
  match st.students.find? (fun s => s.id == id) with
  | none => (Except.error DBError.noRows, st)
  | some row =>
    let st1 : DBState := { st with students := st.students.filter (fun s => s.id != id) }
    let st2 : DBState := { st1 with
      users := st1.users.filter (fun u => u.id != row.userId),
      students := st1.students.filter (fun s => s.userId != row.userId),
      teacherSubjects := st1.teacherSubjects.filter (fun ts => ts.teacherId != row.userId) }
    (Except.ok (), st2)

/-- AssignSubjectToTeacher from models: verify the teacher id resolves to a
user with role teacher and the subject id exists (sql.ErrNoRows otherwise),
then INSERT with ON CONFLICT (teacher_id, subject_id) DO NOTHING. -/
def AssignSubjectToTeacher (st : DBState) (teacherId subjectId : Nat) :
    Except DBError Unit × DBState :=
  if st.users.any (fun u => u.id == teacherId && u.role == "teacher") then
    if st.subjects.any (fun s => s.id == subjectId) then
      if st.teacherSubjects.any
          (fun ts => ts.teacherId == teacherId && ts.subjectId == subjectId) then
        (Except.ok (), st)
      else
        (Except.ok (), { st with
          teacherSubjects := st.teacherSubjects ++ [⟨st.nextTsId, teacherId, subjectId⟩],
          nextTsId := st.nextTsId + 1 })
    else (Except.error DBError.noRows, st)
  else (Except.error DBError.noRows, st)

/-- RemoveSubjectFromTeacher from models: unconditional DELETE of the pair
(absence of the row is not an error). -/
def RemoveSubjectFromTeacher (st : DBState) (teacherId subjectId : Nat) :
    Except DBError Unit × DBState :=
  (Except.ok (), { st with teacherSubjects :=
    st.teacherSubjects.filter (fun ts =>
      !(ts.teacherId == teacherId && ts.subjectId == subjectId)) })

/-- Ordering used by the SQL ORDER BY name clause. -/
def subjectLe (a b : Subject) : Prop :=
  a.name ≤ b.name

instance : DecidableRel subjectLe := fun a b =>
  inferInstanceAs (Decidable (a.name ≤ b.name))

instance : IsTotal Subject subjectLe :=
  ⟨fun a b => le_total a.name b.name⟩

instance : IsTrans Subject subjectLe :=
  ⟨fun _ _ _ hab hbc => le_trans hab hbc⟩

/-- GetSubjectsByGrade from models: SELECT rows of `subjects` WHERE grade
matches, ORDER BY name.  The repository does not validate the grade value:
the query runs for any string (an unknown grade just matches no row). -/
def GetSubjectsByGrade (st : DBState) (grade : String) : List Subject :=
  List.insertionSort subjectLe (st.subjects.filter (fun s => s.grade == grade))

/-- Number of assignment rows stored for one (teacher, subject) pair. -/
def tsCount (st : DBState) (teacherId subjectId : Nat) : Nat :=
  (st.teacherSubjects.filter
    (fun ts => ts.teacherId == teacherId && ts.subjectId == subjectId)).length

/-- The JWT claims the handlers package embeds in a token: user id, role,
issued-at and expiry instants (seconds). -/
structure TokenClaims where
  userId : Nat
  role : String
  issuedAt : Int
  expiresAt : Int
deriving DecidableEq

/-- HMAC-SHA256 signing modelled abstractly: the tag determines, and is
determined by, exactly the signed claims and the secret, which is the
security property the construction provides. -/
def hmacSign (claims : TokenClaims) (secret : String) : TokenClaims × String :=
  (claims, secret)

/-- A signed JWT: the claims payload together with its signature tag. -/
structure Token where
  claims : TokenClaims
  sig : TokenClaims × String
deriving DecidableEq

/-- Token validation failure (bad signature, malformed structure, or expiry
passed): the jwt library reports all of these as a parse error. -/
inductive TokenError where
  | invalid
deriving DecidableEq

/-- The createToken helper of the handlers package: claims carry the user id
and role, IssuedAt = now and ExpiresAt = now + 24h, signed HS256 with the
process-wide secret. -/
def createToken (user : User) (secret : String) (now : Int) : Token :=
  let claims : TokenClaims := ⟨user.id, user.role, now, now + 86400⟩
  ⟨claims, hmacSign claims secret⟩

/-- The validateToken helper of the handlers package: jwt.ParseWithClaims
verifies the signature against the secret and checks that the current
instant is strictly before ExpiresAt; either failure is Invalid. -/
def validateToken (tok : Token) (secret : String) (now : Int) :
    Except TokenError TokenClaims :=
  if tok.sig = hmacSign tok.claims secret ∧ now < tok.claims.expiresAt then
    Except.ok tok.claims
  else
    Except.error TokenError.invalid

/-- The parsed login request body. -/
structure LoginRequest where
  username : String
  password : String
deriving DecidableEq

/-- Observable outcome of the login handler: 200 with token and user, or an
error status with its JSON error message. -/
inductive LoginResponse where
  | success (token : Token) (user : User)
  | failure (status : Nat) (msg : String)
deriving DecidableEq

/-- HandleLogin from the handlers package: look the username up, compare the
password, and issue a token; both failure paths answer 401 with the same
body, so callers cannot tell an unknown username from a wrong password. -/
def HandleLogin (st : DBState) (secret : String) (req : LoginRequest) (now : Int) :
    LoginResponse :=
  match GetUserByUsername st req.username with
  | Except.error _ => LoginResponse.failure 401 "Invalid username or password"
  | Except.ok user =>
    if CheckPassword user req.password then
      LoginResponse.success (createToken user secret now) user
    else
      LoginResponse.failure 401 "Invalid username or password"

/-- The extractToken helper of middleware/auth.go: the header must be longer
than 7 characters and start with the literal Bearer prefix; everything after
the prefix is the token string, and anything else extracts to empty. -/
def extractToken (authHeader : String) : String :=
  if authHeader.length > 7 && authHeader.take 7 == "Bearer " then
    authHeader.drop 7
  else
    ""

/-- Request-scoped Gin context values the middleware sets for handlers. -/
structure Ctx where
  userId : Option Nat
  role : Option String
deriving DecidableEq

/-- Outcome of one middleware step: abort with an HTTP status and error
message (c.Abort), or pass the updated context on (c.Next). -/
inductive StepResult where
  | abort (status : Nat) (msg : String)
  | next (ctx : Ctx)
deriving DecidableEq

/-- JWTAuth from middleware/auth.go, with the jwt library's string-level
parse-and-verify abstracted as `validate`: an empty (absent) header aborts
401, a header without a proper Bearer prefix aborts 401, a token string the
library rejects aborts 401, and only a validated token sets user_id and role
in the context and passes the request on. -/
def JWTAuth (validate : String → Option TokenClaims) (authHeader : String) :
    StepResult :=
  if authHeader == "" then
    StepResult.abort 401 "Authorization header required"
  else
    let tokenString := extractToken authHeader
    if tokenString == "" then
      StepResult.abort 401 "Invalid token format"
    else
      match validate tokenString with
      | none => StepResult.abort 401 "Invalid token"
      | some claims => StepResult.next ⟨some claims.userId, some claims.role⟩

/-- AdminOnly from middleware/auth.go: 401 when no role was attached, 403
unless the attached role is admin. -/
def AdminOnly (ctx : Ctx) : StepResult :=
  match ctx.role with
  | none => StepResult.abort 401 "Authentication required"
  | some r =>
    if r != "admin" then StepResult.abort 403 "Admin access required"
    else StepResult.next ctx

/-- TeacherOrAdmin from middleware/auth.go: 401 when no role was attached,
403 unless the attached role is teacher or admin. -/
def TeacherOrAdmin (ctx : Ctx) : StepResult :=
  match ctx.role with
  | none => StepResult.abort 401 "Authentication required"
  | some r =>
    if r != "teacher" && r != "admin" then
      StepResult.abort 403 "Teacher or admin access required"
    else StepResult.next ctx

/-- The two composable role filters routes.go attaches after JWTAuth. -/
inductive RoleFilter where
  | adminOnly
  | teacherOrAdmin
deriving DecidableEq

/-- Dispatch one role filter. -/
def runFilter : RoleFilter → Ctx → StepResult
  | RoleFilter.adminOnly, ctx => AdminOnly ctx
  | RoleFilter.teacherOrAdmin, ctx => TeacherOrAdmin ctx

/-- Run a chain of role filters left to right; an abort short-circuits the
chain (Gin's c.Abort stops the handler chain). -/
def runFilters : List RoleFilter → Ctx → StepResult
  | [], ctx => StepResult.next ctx
  | f :: fs, ctx =>
    match runFilter f ctx with
    | StepResult.abort s m => StepResult.abort s m
    | StepResult.next ctx' => runFilters fs ctx'

/-- A protected route as wired in routes.go: JWTAuth always runs first, and
the route group's role filters run only if JWTAuth passed the request on. -/
def runProtected (validate : String → Option TokenClaims)
    (filters : List RoleFilter) (authHeader : String) : StepResult :=
  match JWTAuth validate authHeader with
  | StepResult.abort s m => StepResult.abort s m
  | StepResult.next ctx => runFilters filters ctx

/-! Concrete sample data used to exercise the theorems on closed inputs. -/

/-- Sample stored student identity. -/
def sampleAlice : User := ⟨1, "alice", "pw1", "student", 0⟩

/-- Sample stored admin identity. -/
def sampleRoot : User := ⟨2, "root", "pw2", "admin", 0⟩

/-- Sample stored teacher identity (the seeded wg teacher). -/
def sampleWg : User := ⟨3, "wg", "wg_123", "teacher", 0⟩

/-- Sample stored subject. -/
def samplePhysics : Subject := ⟨10, "PIB", "Physics", "Pre-IB Physics", 0⟩

/-- Sample stored student profile owned by sampleAlice. -/
def sampleProfile : StudentRow := ⟨5, 1, "A", "L", "a@x.com", "IB1", 0, 0⟩

/-- Sample database state holding the rows above. -/
def sampleDB : DBState :=
  ⟨[sampleAlice, sampleRoot, sampleWg], [sampleProfile], [samplePhysics], [], 4, 6, 1⟩

/-- Sample jwt-library verifier: accepts exactly the token string tok with
teacher claims, as a concrete instantiation of the abstract parse step. -/
def sampleValidate : String → Option TokenClaims :=
  fun s => if s == "tok" then some ⟨3, "teacher", 0, 86400⟩ else none

/-! Claim theorems. -/

/-- C1: when the requested username already exists in `users` or the
requested email already exists in `students`, CreateStudent fails with the
unique-constraint violation (the Conflict) and returns the store exactly as
it was: the transaction rolls back, so no identity row inserted in step 1
survives a failure in step 2. -/
theorem createStudent_conflict_rolls_back (st : DBState) (req : StudentRequest) (now : Int)
    (hdup : st.users.any (fun u => u.username == req.username) = true ∨
            st.students.any (fun s => s.email == req.email) = true) :
    CreateStudent st req now = (Except.error DBError.uniqueViolation, st) := by
  unfold CreateStudent
  by_cases hu : st.users.any (fun u => u.username == req.username) = true
  · simp [hu]
  · rcases hdup with h | h
    · exact absurd h hu
    · simp [hu, h]

/-- C1 witness: creating a student whose email duplicates the stored
profile's email fails with the unique-constraint violation and leaves the
sample store untouched. -/
theorem createStudent_conflict_rolls_back_witness :
    CreateStudent sampleDB ⟨"B", "C", "a@x.com", "IB1", "bob", "p"⟩ 7 =
      (Except.error DBError.uniqueViolation, sampleDB) :=
  createStudent_conflict_rolls_back sampleDB ⟨"B", "C", "a@x.com", "IB1", "bob", "p"⟩ 7
    (Or.inr (by decide))

/-- C4: deleting a student id that has no row in `students` returns
sql.ErrNoRows (the NotFound failure) to the caller and returns the store
exactly as it was: neither `users` nor `students` rows change. -/
theorem deleteStudent_notFound_leaves_state (st : DBState) (id : Nat)
    (habsent : ∀ s ∈ st.students, s.id ≠ id) :
    DeleteStudent st id = (Except.error DBError.noRows, st) := by
  unfold DeleteStudent
  have hfind : st.students.find? (fun s => s.id == id) = none := by
    rw [List.find?_eq_none]
    intro s hs
    simpa using habsent s hs
  rw [hfind]

/-- C4 witness: deleting the absent student id 99 from the sample store
fails with NotFound and leaves the store unchanged. -/
theorem deleteStudent_notFound_leaves_state_witness :
    DeleteStudent sampleDB 99 = (Except.error DBError.noRows, sampleDB) :=
  deleteStudent_notFound_leaves_state sampleDB 99 (by decide)

/-- C8: for every grade string (validated or not, the repository accepts
any), listing subjects by grade returns exactly the stored subjects whose
grade equals it, as a list sorted in ascending order by name. -/
theorem getSubjectsByGrade_filter_sorted (st : DBState) (grade : String) :
    (GetSubjectsByGrade st grade).Perm
      (st.subjects.filter (fun s => s.grade == grade)) ∧
    List.Sorted subjectLe (GetSubjectsByGrade st grade) ∧
    ∀ s ∈ GetSubjectsByGrade st grade, s.grade = grade := by
  unfold GetSubjectsByGrade
  refine ⟨List.perm_insertionSort _ _, List.sorted_insertionSort _ _, fun s hs => ?_⟩
  have hmem := (List.perm_insertionSort subjectLe _).mem_iff.mp hs
  simpa using (List.mem_filter.mp hmem).2

/-- C10: a login whose username matches no identity and a login whose
username matches but whose password does not produce the same observable
response, status 401 with the identical error message, so the two failure
causes cannot be distinguished by the caller. -/
theorem login_failure_indistinguishable (st : DBState) (secret : String)
    (r1 r2 : LoginRequest) (now : Int) (u : User)
    (h1 : st.users.find? (fun x => x.username == r1.username) = none)
    (h2 : st.users.find? (fun x => x.username == r2.username) = some u)
    (h3 : u.password ≠ r2.password) :
    HandleLogin st secret r1 now =
      LoginResponse.failure 401 "Invalid username or password" ∧
    HandleLogin st secret r2 now =
      LoginResponse.failure 401 "Invalid username or password" ∧
    HandleLogin st secret r1 now = HandleLogin st secret r2 now := by
  unfold HandleLogin GetUserByUsername CheckPassword
  rw [h1, h2]
  simp [h3]

/-- C2: for every stored identity matched by the login request's username
and password, login succeeds with a token, and validating that token with
the same signing secret at any instant before its expiry yields claims
carrying exactly the identity's id and role. -/
theorem login_validate_roundtrip (st : DBState) (secret : String) (req : LoginRequest)
    (u : User) (now t : Int)
    (hfind : st.users.find? (fun x => x.username == req.username) = some u)
    (hpw : u.password = req.password)
    (ht : t < now + 86400) :
    ∃ tok, HandleLogin st secret req now = LoginResponse.success tok u ∧
      validateToken tok secret t = Except.ok tok.claims ∧
      tok.claims.userId = u.id ∧ tok.claims.role = u.role := by
  refine ⟨createToken u secret now, ?_, ?_, rfl, rfl⟩
  · unfold HandleLogin GetUserByUsername CheckPassword
    rw [hfind]
    simp [hpw]
  · unfold validateToken createToken hmacSign
    simp [ht]

/-- C2 witness: logging sampleAlice in at instant 0 yields a token that
validates successfully at instant 86340 (23h59m later). -/
theorem login_validate_roundtrip_witness :
    validateToken (createToken sampleAlice "sec" 0) "sec" 86340 =
      Except.ok (createToken sampleAlice "sec" 0).claims := by
  obtain ⟨tok, h1, h2, -, -⟩ :=
    login_validate_roundtrip sampleDB "sec" ⟨"alice", "pw1"⟩ sampleAlice 0 86340
      (by decide) (by decide) (by decide)
  have heval : HandleLogin sampleDB "sec" ⟨"alice", "pw1"⟩ 0 =
      LoginResponse.success (createToken sampleAlice "sec" 0) sampleAlice := by decide
  rw [heval] at h1
  injection h1 with htok huser
  rw [← htok] at h2
  exact h2

/-- C5: a token issued at instant T carries issued-at T and expiry
T + 86400 seconds (24 hours); validating it with the issuing secret
succeeds at every instant strictly before the expiry and fails with
Invalid at every instant after it. -/
theorem token_lifetime (user : User) (secret : String) (T t : Int) :
    (createToken user secret T).claims.issuedAt = T ∧
    (createToken user secret T).claims.expiresAt = T + 86400 ∧
    (t < T + 86400 →
      validateToken (createToken user secret T) secret t =
        Except.ok (createToken user secret T).claims) ∧
    (T + 86400 < t →
      validateToken (createToken user secret T) secret t =
        Except.error TokenError.invalid) := by
  refine ⟨rfl, rfl, fun ht => ?_, fun ht => ?_⟩
  · unfold validateToken createToken hmacSign
    simp [ht]
  · have hn : ¬ t < T + 86400 := by omega
    unfold validateToken createToken hmacSign
    simp [hn]

/-- C5 witness: a token issued for sampleWg at instant 100 validates at
instant 86440 (23h59m later) and is Invalid at instant 86560 (24h01m
later). -/
theorem token_lifetime_witness :
    validateToken (createToken sampleWg "k" 100) "k" 86440 =
      Except.ok (createToken sampleWg "k" 100).claims ∧
    validateToken (createToken sampleWg "k" 100) "k" 86560 =
      Except.error TokenError.invalid :=
  ⟨(token_lifetime sampleWg "k" 100 86440).2.2.1 (by decide),
   (token_lifetime sampleWg "k" 100 86560).2.2.2 (by decide)⟩

/-- C3: a protected request whose Authorization header is absent (Gin
returns the empty string for a missing header) or whose Bearer prefix is
malformed (extractToken yields the empty token string) is aborted by
JWTAuth with status 401, whatever role filters guard the route; it is never
answered with 403, because the role filters only run after JWTAuth passes
the request on. -/
theorem protected_missing_header_unauthenticated
    (validate : String → Option TokenClaims) (filters : List RoleFilter)
    (authHeader : String) (hbad : extractToken authHeader = "") :
    (∃ msg, runProtected validate filters authHeader = StepResult.abort 401 msg) ∧
    ∀ msg, runProtected validate filters authHeader ≠ StepResult.abort 403 msg := by
  unfold runProtected JWTAuth
  by_cases hh : authHeader = ""
  · subst hh
    simp
  · simp [hh, hbad]

/-- C3 witness: a header without the Bearer prefix is rejected 401 by an
AdminOnly-guarded route and in particular not rejected 403. -/
theorem protected_missing_header_unauthenticated_witness :
    runProtected sampleValidate [RoleFilter.adminOnly] "Token abc" =
      StepResult.abort 401 "Invalid token format" ∧
    runProtected sampleValidate [RoleFilter.adminOnly] "Token abc" ≠
      StepResult.abort 403 "Admin access required" :=
  ⟨by decide,
   (protected_missing_header_unauthenticated sampleValidate [RoleFilter.adminOnly]
     "Token abc" (by decide)).2 "Admin access required"⟩

/-- Helper: a context carrying the teacher role passes every TeacherOrAdmin
filter unchanged, so any filter chain containing the AdminOnly filter aborts
it with 403 at that filter. -/
theorem runFilters_teacher_adminOnly_mem (filters : List RoleFilter) (ctx : Ctx)
    (hctx : ctx.role = some "teacher") (hmem : RoleFilter.adminOnly ∈ filters) :
    runFilters filters ctx = StepResult.abort 403 "Admin access required" := by
  induction filters with
  | nil => cases hmem
  | cons f fs ih =>
    cases f with
    | adminOnly =>
      unfold runFilters runFilter AdminOnly
      simp [hctx]
    | teacherOrAdmin =>
      unfold runFilters runFilter TeacherOrAdmin
      simp [hctx]
      refine ih ?_
      rcases List.mem_cons.mp hmem with h | h
      · exact absurd h (by simp)
      · exact h

/-- C6: a request bearing a token the jwt layer validates to teacher claims
is rejected with 403 Forbidden (never 401) by every route whose filter
chain contains the AdminOnly filter; this covers both AdminOnly-guarded
shapes of routes.go, the admin student group (JWTAuth then AdminOnly) and
the teacher-subject assignment routes (JWTAuth then TeacherOrAdmin then
AdminOnly): JWTAuth passes the token on, TeacherOrAdmin lets the teacher
role through, and AdminOnly aborts. -/
theorem adminOnly_valid_teacher_token_forbidden
    (validate : String → Option TokenClaims) (filters : List RoleFilter)
    (authHeader ts : String) (claims : TokenClaims)
    (hmem : RoleFilter.adminOnly ∈ filters)
    (hex : extractToken authHeader = ts) (hts : ts ≠ "")
    (hv : validate ts = some claims) (hrole : claims.role = "teacher") :
    runProtected validate filters authHeader =
      StepResult.abort 403 "Admin access required" := by
  have hh : authHeader ≠ "" := by
    intro h
    apply hts
    rw [← hex, h]
    decide
  unfold runProtected JWTAuth
  simp only [hh, hex, hts, hv]
  rw [if_neg (by simpa using hh), if_neg (by simpa using hts)]
  exact runFilters_teacher_adminOnly_mem filters ⟨some claims.userId, some claims.role⟩
    (by simp [hrole]) hmem

/-- C6 witness: the concrete teacher token string is answered 403 both by
the admin student route chain and by the teacher-subject assignment route
chain. -/
theorem adminOnly_valid_teacher_token_forbidden_witness :
    runProtected sampleValidate [RoleFilter.adminOnly] "Bearer tok" =
      StepResult.abort 403 "Admin access required" ∧
    runProtected sampleValidate [RoleFilter.teacherOrAdmin, RoleFilter.adminOnly]
      "Bearer tok" = StepResult.abort 403 "Admin access required" :=
  ⟨adminOnly_valid_teacher_token_forbidden sampleValidate [RoleFilter.adminOnly]
    "Bearer tok" "tok" ⟨3, "teacher", 0, 86400⟩ (by decide) (by decide) (by decide)
    (by decide) rfl,
   adminOnly_valid_teacher_token_forbidden sampleValidate
    [RoleFilter.teacherOrAdmin, RoleFilter.adminOnly]
    "Bearer tok" "tok" ⟨3, "teacher", 0, 86400⟩ (by decide) (by decide) (by decide)
    (by decide) rfl⟩

/-- Helper: a stored assignment row matching the pair makes the pair count
at least one. -/
theorem one_le_tsCount_of_any (st : DBState) (tid sid : Nat)
    (h : st.teacherSubjects.any
      (fun ts => ts.teacherId == tid && ts.subjectId == sid) = true) :
    1 ≤ tsCount st tid sid := by
  obtain ⟨x, hx, hpx⟩ := List.any_eq_true.mp h
  have hmem : x ∈ st.teacherSubjects.filter
      (fun ts => ts.teacherId == tid && ts.subjectId == sid) :=
    List.mem_filter.mpr ⟨hx, hpx⟩
  have hpos := List.length_pos.mpr (List.ne_nil_of_mem hmem)
  unfold tsCount
  omega

/-- Helper: with no stored assignment row matching the pair, the pair count
is zero. -/
theorem tsCount_eq_zero_of_not_any (st : DBState) (tid sid : Nat)
    (h : st.teacherSubjects.any
      (fun ts => ts.teacherId == tid && ts.subjectId == sid) = false) :
    tsCount st tid sid = 0 := by
  unfold tsCount
  rw [List.length_eq_zero, List.filter_eq_nil_iff]
  rw [List.any_eq_false] at h
  exact h

/-- C7: when the teacher id resolves to a user with role teacher and the
subject id exists, assigning the pair twice succeeds both times (the second
insert is an ON CONFLICT no-op) and leaves exactly one assignment row for
the pair (given the unique constraint held before); when either id does not
resolve, the call fails with sql.ErrNoRows (NotFound) and inserts nothing. -/
theorem assignSubjectToTeacher_idempotent_or_notFound (st : DBState) (tid sid : Nat) :
    (st.users.any (fun u => u.id == tid && u.role == "teacher") = true →
     st.subjects.any (fun s => s.id == sid) = true →
     tsCount st tid sid ≤ 1 →
     ∃ st1 st2,
       AssignSubjectToTeacher st tid sid = (Except.ok (), st1) ∧
       AssignSubjectToTeacher st1 tid sid = (Except.ok (), st2) ∧
       tsCount st2 tid sid = 1) ∧
    ((st.users.any (fun u => u.id == tid && u.role == "teacher") = false ∨
      st.subjects.any (fun s => s.id == sid) = false) →
     AssignSubjectToTeacher st tid sid = (Except.error DBError.noRows, st)) := by
  constructor
  · intro hT hS hle
    by_cases hdup : st.teacherSubjects.any
        (fun ts => ts.teacherId == tid && ts.subjectId == sid) = true
    · have hone := one_le_tsCount_of_any st tid sid hdup
      refine ⟨st, st, ?_, ?_, ?_⟩
      · unfold AssignSubjectToTeacher
        simp [hT, hS, hdup]
      · unfold AssignSubjectToTeacher
        simp [hT, hS, hdup]
      · omega
    · have hfa : st.teacherSubjects.any
          (fun ts => ts.teacherId == tid && ts.subjectId == sid) = false := by
        simpa using hdup
      have hzero := tsCount_eq_zero_of_not_any st tid sid hfa
      refine ⟨{ st with
          teacherSubjects := st.teacherSubjects ++ [⟨st.nextTsId, tid, sid⟩],
          nextTsId := st.nextTsId + 1 },
        { st with
          teacherSubjects := st.teacherSubjects ++ [⟨st.nextTsId, tid, sid⟩],
          nextTsId := st.nextTsId + 1 }, ?_, ?_, ?_⟩
      · unfold AssignSubjectToTeacher
        simp [hT, hS, hfa]
      · unfold AssignSubjectToTeacher
        have hdup1 : (st.teacherSubjects ++ [(⟨st.nextTsId, tid, sid⟩ : TeacherSubject)]).any
            (fun ts => ts.teacherId == tid && ts.subjectId == sid) = true := by
          rw [List.any_append]
          simp
        simp [hT, hS, hdup1]
      · unfold tsCount at hzero ⊢
        rw [List.filter_append, List.length_append, hzero]
        simp
  · intro hOr
    unfold AssignSubjectToTeacher
    rcases hOr with h | h
    · simp [h]
    · by_cases hT : st.users.any (fun u => u.id == tid && u.role == "teacher") = true
      · simp [hT, h]
      · simp [hT]

/-- C7 witness: assigning subject 10 to teacher wg (id 3) twice leaves one
row; assigning to the non-teacher id 1 fails with NotFound and changes
nothing. -/
theorem assignSubjectToTeacher_idempotent_or_notFound_witness :
    tsCount (AssignSubjectToTeacher
      (AssignSubjectToTeacher sampleDB 3 10).2 3 10).2 3 10 = 1 ∧
    AssignSubjectToTeacher sampleDB 1 10 = (Except.error DBError.noRows, sampleDB) := by
  constructor
  · obtain ⟨st1, st2, h1, h2, h3⟩ :=
      (assignSubjectToTeacher_idempotent_or_notFound sampleDB 3 10).1
        (by decide) (by decide) (by decide)
    rw [h1]
    dsimp only
    rw [h2]
    dsimp only
    exact h3
  · exact (assignSubjectToTeacher_idempotent_or_notFound sampleDB 1 10).2
      (Or.inl (by decide))

/-- Helper: the optional password step touches only the `users` table. -/
theorem stepPassword_frame (st : DBState) (req : StudentRequest) (uid : Nat) :
    (stepPassword st req uid).students = st.students ∧
    (stepPassword st req uid).subjects = st.subjects ∧
    (stepPassword st req uid).teacherSubjects = st.teacherSubjects := by
  unfold stepPassword updateUserPassword
  by_cases hpw : req.password = ""
  · rw [if_pos hpw]
    exact ⟨rfl, rfl, rfl⟩
  · rw [if_neg hpw]
    exact ⟨rfl, rfl, rfl⟩

/-- C9: on every successful student update, subjects and assignments are
untouched; when the request carries no password the `users` table is left
entirely unchanged, and when it carries one the only change to `users` is
the password column of the owning identity row; the `students` table
changes only at the row with the updated id, whose four profile fields and
updatedAt are overwritten together (id, owning user id and createdAt are
preserved). -/
theorem updateStudent_frame (st : DBState) (id : Nat) (req : StudentRequest) (now : Int)
    (stud : Student) (st' : DBState)
    (hok : UpdateStudent st id req now = (Except.ok stud, st')) :
    st'.subjects = st.subjects ∧
    st'.teacherSubjects = st.teacherSubjects ∧
    (req.password = "" → st'.users = st.users) ∧
    ∃ row, st.students.find? (fun s => s.id == id) = some row ∧
      (req.password ≠ "" → st'.users = st.users.map (fun u =>
        if u.id == row.userId then { u with password := req.password } else u)) ∧
      st'.students = st.students.map (fun s =>
        if s.id == id then { s with
          firstName := req.firstName, lastName := req.lastName,
          email := req.email, grade := req.grade, updatedAt := now } else s) := by
  unfold UpdateStudent at hok
  split at hok
  · simp at hok
  next row hfind =>
    split at hok
    · simp at hok
    next hdup =>
      split at hok
      · simp at hok
      next u hu =>
        rw [Prod.mk.injEq] at hok
        obtain ⟨-, hB⟩ := hok
        subst hB
        refine ⟨(stepPassword_frame st req row.userId).2.1,
          (stepPassword_frame st req row.userId).2.2, ?_, row, hfind, ?_, ?_⟩
        · intro hpw
          show (stepPassword st req row.userId).users = st.users
          unfold stepPassword
          rw [if_pos hpw]
        · intro hpw
          show (stepPassword st req row.userId).users = _
          unfold stepPassword updateUserPassword
          rw [if_neg hpw]
        · show (stepPassword st req row.userId).students.map _ = _
          rw [(stepPassword_frame st req row.userId).1]

/-- C9 witness: updating the sample profile with an empty password leaves
the `users` table unchanged, and updating it with a new password changes no
`students` row other than the updated one. -/
theorem updateStudent_frame_witness :
    (UpdateStudent sampleDB 5 ⟨"N", "M", "n@x.com", "IB2", "alice", ""⟩ 9).2.users =
      sampleDB.users ∧
    (UpdateStudent sampleDB 5 ⟨"N", "M", "n@x.com", "IB2", "alice", "pw9"⟩ 9).2.students =
      [⟨5, 1, "N", "M", "n@x.com", "IB2", 0, 9⟩] := by
  constructor
  · obtain ⟨-, -, husers, -⟩ :=
      updateStudent_frame sampleDB 5 ⟨"N", "M", "n@x.com", "IB2", "alice", ""⟩ 9
        ⟨⟨5, 1, "N", "M", "n@x.com", "IB2", 0, 9⟩, "alice"⟩
        ((UpdateStudent sampleDB 5 ⟨"N", "M", "n@x.com", "IB2", "alice", ""⟩ 9).2)
        (by decide)
    exact husers rfl
  · obtain ⟨-, -, -, row, hrow, -, hstudents⟩ :=
      updateStudent_frame sampleDB 5 ⟨"N", "M", "n@x.com", "IB2", "alice", "pw9"⟩ 9
        ⟨⟨5, 1, "N", "M", "n@x.com", "IB2", 0, 9⟩, "alice"⟩
        ((UpdateStudent sampleDB 5 ⟨"N", "M", "n@x.com", "IB2", "alice", "pw9"⟩ 9).2)
        (by decide)
    rw [hstudents]
    decide

/-- C10 witness: in the sample store, the unknown username nobody and the
known username alice with a wrong password yield equal 401 responses. -/
theorem login_failure_indistinguishable_witness :
    HandleLogin sampleDB "sec" ⟨"nobody", "x"⟩ 0 =
      HandleLogin sampleDB "sec" ⟨"alice", "bad"⟩ 0 :=
  (login_failure_indistinguishable sampleDB "sec" ⟨"nobody", "x"⟩ ⟨"alice", "bad"⟩ 0
    sampleAlice (by decide) (by decide) (by decide)).2.2
end WgEdu
